import Mathlib

/-!
Verification of the rustyvim editor core (`src/editor.rs`).

The editor's pure state-transition logic is embedded shallowly:
machine integers (`usize`, `u16`) become `Nat` (all the source's
arithmetic on them is saturating or bounded far below the machine
width), fallible lookups become `Option`, and the draw functions
return the text they would print instead of writing to the terminal.
The `Document`, `Row` and `Terminal` collaborators live outside
`src/`; they are modelled from the spec where noted.
-/

namespace RustyVim

/-- Rendered text is a list of characters (the source builds `String`s
by `format!`, `repeat`, `truncate`; all claims concern ASCII text). -/
abbrev Text := List Char

/-- The `Position` struct from `editor.rs`: a 2D discrete coordinate. -/
structure Position where
  x : Nat
  y : Nat
deriving Repr, DecidableEq

/-- Modelled from the spec: the `Row` collaborator (not under `src/`):
one logical line with a length and a total `render(start, end)` slice
operation over the half-open range. -/
structure Row where
  chars : Text
deriving Repr, DecidableEq

def Row.len (r : Row) : Nat := r.chars.length

/-- Modelled from the spec: `render(start, end)` returns the visible
text for that half-open range, total for any range. -/
def Row.render (r : Row) (start fin : Nat) : Text :=
  (r.chars.drop start).take (fin - start)

/-- Modelled from the spec: the `Document` collaborator (not under
`src/`): an ordered sequence of `Row` plus an optional file name, with
`row(index)` an optional lookup and `len()` the row count. -/
structure Document where
  rows : List Row
  file_name : Option Text
deriving Repr, DecidableEq

def Document.row (d : Document) (i : Nat) : Option Row := d.rows.get? i

def Document.len (d : Document) : Nat := d.rows.length

def Document.is_empty (d : Document) : Bool := d.rows.isEmpty

/-- Modelled from the spec: `Document::default()` is the empty document. -/
def Document.default : Document := ⟨[], none⟩

/-- Modelled from the spec: the `Terminal` collaborator's `size()`,
width and height (`u16` in the source, cast to `usize` before use). -/
structure Size where
  width : Nat
  height : Nat
deriving Repr, DecidableEq

/-- The `StatusMessage` struct from `editor.rs`; `time : Nat` is the `Instant`
creation timestamp measured in nanoseconds. -/
structure StatusMessage where
  text : Text
  time : Nat
deriving Repr, DecidableEq

/-- The `Editor` state from `editor.rs`.  The `terminal` handle is
represented by the only datum the core reads from it, its `size()`. -/
structure Editor where
  should_quit : Bool
  size : Size
  cursor_position : Position
  offset : Position
  document : Document
  status_message : StatusMessage
deriving Repr, DecidableEq

/-- The `termion::event::Key` variants the editor matches on; every
other key falls into the wildcard arm, represented by `other`. -/
inductive Key where
  | up
  | down
  | left
  | right
  | pageUp
  | pageDown
  | home
  | endKey
  | ctrl (c : Char)
  | char (c : Char)
  | other
deriving Repr, DecidableEq

/-- Length of the document row at index `y`, or `0` when no row exists
there — the two `if let Some(row) ... row.len() ... else 0` blocks of
`Editor::move_cursor`. -/
def rowLenAt (d : Document) (y : Nat) : Nat :=
  match d.row y with
  | some r => r.len
  | none => 0

/-- Embeds `Editor::scroll`, `editor.rs` lines 134-150.  `Nat`
subtraction is Rust's `saturating_sub`; the source's `saturating_add`
never saturates for the bounded values involved, so it is plain `+`. -/
def Editor.scroll (e : Editor) : Editor :=
  let x := e.cursor_position.x
  let y := e.cursor_position.y
  let width := e.size.width
  let height := e.size.height
  let oy :=
    if y < e.offset.y then y
    else if y ≥ e.offset.y + height then y - height + 1
    else e.offset.y
  let ox :=
    if x < e.offset.x then x
    else if x ≥ e.offset.x + width then x - width + 1
    else e.offset.x
  { e with offset := ⟨ox, oy⟩ }

/-- Embeds `Editor::move_cursor`, `editor.rs` lines 155-209, including
the final clamp of `x` to the length of the row now at `y`. -/
def Editor.move_cursor (e : Editor) (key : Key) : Editor :=
  let p := e.cursor_position
  let height := e.document.len
  let width := rowLenAt e.document p.y
  let moved : Nat × Nat :=
    match key with
    | .up => (p.x, p.y - 1)
    | .down => if p.y < height then (p.x, p.y + 1) else (p.x, p.y)
    | .left =>
        if p.x > 0 then (p.x - 1, p.y)
        else if p.y > 0 then (rowLenAt e.document (p.y - 1), p.y - 1)
        else (p.x, p.y)
    | .right =>
        if p.x < width then (p.x + 1, p.y)
        else if p.y < height then (0, p.y + 1)
        else (p.x, p.y)
    | .pageUp => (p.x, 0)
    | .pageDown => (p.x, height)
    | .home => (0, p.y)
    | .endKey => (width, p.y)
    | _ => (p.x, p.y)
  let x := moved.1
  let y := moved.2
  let width2 := rowLenAt e.document y
  let x2 := if x > width2 then width2 else x
  { e with cursor_position := ⟨x2, y⟩ }

/-- Embeds `Editor::process_keypress`, `editor.rs` lines 112-129 (the
pure part, after `read_key` has produced `key`): dispatch on the key,
then `scroll`. -/
def Editor.process_keypress (e : Editor) (key : Key) : Editor :=
  let e2 :=
    match key with
    | .ctrl c => if c = 'q' then { e with should_quit := true } else e
    | .up | .down | .left | .right | .pageUp | .pageDown | .endKey | .home =>
        e.move_cursor key
    | _ => e
  e2.scroll

/-- Embeds `Editor::draw_welcome_msg`, `editor.rs` lines 214-224, as the
line it prints (without the trailing carriage return).  `version` is
the crate version baked in at compile time. -/
def draw_welcome_msg (width : Nat) (version : Text) : Text :=
  let msg := "RustyVim -- version ".toList ++ version
  let len := msg.length
  let padding := (width - len) / 2
  let spaces := List.replicate (padding - 1) ' '
  let msg2 := '~' :: (spaces ++ msg)
  msg2.take width

/-- Embeds `Editor::draw_row`, `editor.rs` lines 229-235, as the text it
prints: `row.render(offset.x, offset.x + width)`. -/
def Editor.draw_row (e : Editor) (r : Row) : Text :=
  let width := e.size.width
  let start := e.offset.x
  let fin := e.offset.x + width
  r.render start fin

/-- The `(start, end)` argument pair `Editor::draw_row` passes to the
row collaborator's `render`. -/
def Editor.draw_row_range (e : Editor) : Nat × Nat :=
  (e.offset.x, e.offset.x + e.size.width)

/-- One line produced by `Editor::draw_rows`, tagged by which branch
of its `if let ... else if ... else` printed it. -/
inductive Line where
  | content (t : Text)
  | welcome (t : Text)
  | placeholder
deriving Repr, DecidableEq

/-- Embeds `Editor::draw_rows`, `editor.rs` lines 240-253, as the list of
lines printed for terminal rows `0..height`. -/
def Editor.draw_rows (e : Editor) (version : Text) : List Line :=
  (List.range e.size.height).map fun terminal_row =>
    match e.document.row (terminal_row + e.offset.y) with
    | some r => Line.content (e.draw_row r)
    | none =>
        if e.document.is_empty ∧ terminal_row = e.size.height / 3 then
          Line.welcome (draw_welcome_msg e.size.width version)
        else Line.placeholder

/-- The status-message TTL, `Duration::new(5, 0)`, in nanoseconds. -/
def messageTTL : Nat := 5000000000

/-- Embeds `Editor::draw_message_bar`, `editor.rs` lines 294-302, as the
text printed at instant `now` (nanoseconds): `some` of the truncated
message text while `now - message.time < 5s`, `none` (a blank line)
otherwise.  The editor state itself is untouched (`&self`): the stale
message object is never deleted. -/
def Editor.draw_message_bar (e : Editor) (now : Nat) : Option Text :=
  if now - e.status_message.time < messageTTL then
    some (e.status_message.text.take e.size.width)
  else none

/-- The default initial status text, `"Ctrl-Q to quit"`. -/
def initialStatusText : Text := "Ctrl-Q to quit".toList

/-- The failure status text `format!("ERROR: Can't open {}", file_name)`
(the apostrophe is `Char.ofNat 39`). -/
def errorStatusText (file_name : Text) : Text :=
  "ERROR: Can".toList ++ [Char.ofNat 39] ++ "t open ".toList ++ file_name

/-- Embeds `Editor::default`, `editor.rs` lines 58-83, parameterised by
the ambient effects it reads: the command-line `args`, the outcome of
`Document::open` for a path (`openDoc`, `none` when opening fails),
the terminal size, and the current instant `now` (for the status
message's timestamp).  Terminal initialisation is assumed to succeed
(its failure is the separate fatal `expect`). -/
def editorDefault (args : List Text) (openDoc : Text → Option Document)
    (size : Size) (now : Nat) : Editor :=
  let chosen : Document × Text :=
    match args with
    | _ :: file_name :: _ =>
        match openDoc file_name with
        | some doc => (doc, initialStatusText)
        | none => (Document.default, errorStatusText file_name)
    | _ => (Document.default, initialStatusText)
  { should_quit := false
    size := size
    document := chosen.1
    cursor_position := ⟨0, 0⟩
    offset := ⟨0, 0⟩
    status_message := ⟨chosen.2, now⟩ }

/-! ### Concrete states used by scenarios and witnesses -/

/-- A document with exactly one row of length 100 (scenario 3). -/
def doc100 : Document := ⟨[⟨List.replicate 100 'a'⟩], none⟩

/-- Scenario 3 start state: terminal width 40, cursor and offset at the
origin, document `doc100`. -/
def scenario3Start : Editor :=
  { should_quit := false
    size := ⟨40, 24⟩
    cursor_position := ⟨0, 0⟩
    offset := ⟨0, 0⟩
    document := doc100
    status_message := ⟨[], 0⟩ }

/-- A document with 5 (one-character) lines (scenario 2). -/
def doc5 : Document := ⟨List.replicate 5 ⟨['a']⟩, none⟩

/-- Scenario 2 start state: 5-line document, cursor at the origin. -/
def scenario2Start : Editor :=
  { should_quit := false
    size := ⟨40, 24⟩
    cursor_position := ⟨0, 0⟩
    offset := ⟨0, 0⟩
    document := doc5
    status_message := ⟨[], 0⟩ }

/-- Scenario 1 start state: empty document, 80×24 terminal. -/
def scenario1Start : Editor :=
  { should_quit := false
    size := ⟨80, 24⟩
    cursor_position := ⟨0, 0⟩
    offset := ⟨0, 0⟩
    document := Document.default
    status_message := ⟨[], 0⟩ }

/-- A degenerate state whose terminal reports size 0×0. -/
def degenerateSize : Editor :=
  { should_quit := false
    size := ⟨0, 0⟩
    cursor_position := ⟨0, 0⟩
    offset := ⟨0, 0⟩
    document := Document.default
    status_message := ⟨[], 0⟩ }

/-! ### Helper lemmas -/

/-- The `scroll` step changes only the offset. -/
lemma scroll_frame (e : Editor) :
    (e.scroll).should_quit = e.should_quit ∧ (e.scroll).size = e.size ∧
    (e.scroll).cursor_position = e.cursor_position ∧
    (e.scroll).document = e.document ∧
    (e.scroll).status_message = e.status_message :=
  ⟨rfl, rfl, rfl, rfl, rfl⟩

/-- The scroll invariant: after `scroll`, the cursor lies inside the
window whenever the terminal has positive height and width. -/
lemma scroll_bounds_aux (e : Editor)
    (hh : 0 < e.size.height) (hw : 0 < e.size.width) :
    e.scroll.offset.y ≤ e.cursor_position.y ∧
    e.cursor_position.y < e.scroll.offset.y + e.size.height ∧
    e.scroll.offset.x ≤ e.cursor_position.x ∧
    e.cursor_position.x < e.scroll.offset.x + e.size.width := by
  simp only [Editor.scroll]
  split_ifs <;> simp_all <;> omega

/-- When the cursor is already inside the window, `scroll` is the
identity. -/
lemma scroll_of_inside (e : Editor)
    (h1 : e.offset.y ≤ e.cursor_position.y)
    (h2 : e.cursor_position.y < e.offset.y + e.size.height)
    (h3 : e.offset.x ≤ e.cursor_position.x)
    (h4 : e.cursor_position.x < e.offset.x + e.size.width) :
    e.scroll = e := by
  simp only [Editor.scroll]
  split_ifs <;> first | rfl | omega

/-- After any `move_cursor`, the cursor's `x` is clamped to the length
of the row now under it (length 0 for a nonexistent row). -/
lemma move_cursor_clamp (e : Editor) (k : Key) :
    (e.move_cursor k).cursor_position.x ≤
      rowLenAt e.document ((e.move_cursor k).cursor_position.y) := by
  cases k <;> (simp only [Editor.move_cursor]; split_ifs <;> omega)

/-! ### Claim theorems -/

/-- C1: for every cursor position, starting offset and terminal size
with positive height and width, one call to `scroll` yields an offset
with `offset.y ≤ cursor.y < offset.y + height` and
`offset.x ≤ cursor.x < offset.x + width`. -/
theorem scroll_keeps_cursor_visible (e : Editor)
    (hh : 0 < e.size.height) (hw : 0 < e.size.width) :
    e.scroll.offset.y ≤ e.cursor_position.y ∧
    e.cursor_position.y < e.scroll.offset.y + e.size.height ∧
    e.scroll.offset.x ≤ e.cursor_position.x ∧
    e.cursor_position.x < e.scroll.offset.x + e.size.width :=
  scroll_bounds_aux e hh hw

/-- Witness for C1 at scenario 3's start state. -/
theorem scroll_keeps_cursor_visible_witness :
    0 < scenario3Start.size.height ∧ 0 < scenario3Start.size.width ∧
    (scenario3Start.scroll.offset.y ≤ scenario3Start.cursor_position.y ∧
     scenario3Start.cursor_position.y <
       scenario3Start.scroll.offset.y + scenario3Start.size.height ∧
     scenario3Start.scroll.offset.x ≤ scenario3Start.cursor_position.x ∧
     scenario3Start.cursor_position.x <
       scenario3Start.scroll.offset.x + scenario3Start.size.width) :=
  ⟨by decide, by decide,
   scroll_keeps_cursor_visible scenario3Start (by decide) (by decide)⟩

/-- Pressing the Right key `n` times. -/
def rightN (n : Nat) (e : Editor) : Editor :=
  (fun s => s.move_cursor Key.right)^[n] e

set_option maxRecDepth 40000 in
/-- C2 counterexample: from scenario 3's start state, 50 `Right`
presses followed by `scroll` do NOT leave the cursor at `x = 100`
with `offset.x = 61`. -/
theorem scenario3_fifty_rights_counterexample :
    ¬(((rightN 50 scenario3Start).scroll.cursor_position.x = 100) ∧
      ((rightN 50 scenario3Start).scroll.offset.x = 61)) := by
  decide

set_option maxRecDepth 40000 in
/-- C2 amended: from scenario 3's start state (one 100-character row,
terminal width 40, cursor at `x = 0`), 50 `Right` presses move the
cursor one column per press to `x = 50` on the same row, and the
subsequent `scroll` yields `offset.x = 50 - 40 + 1 = 11`. -/
theorem scenario3_fifty_rights :
    (rightN 50 scenario3Start).scroll.cursor_position.x = 50 ∧
    (rightN 50 scenario3Start).scroll.cursor_position.y = 0 ∧
    (rightN 50 scenario3Start).scroll.offset.x = 11 := by
  decide

/-- C3: after any vertical cursor move (`Up`, `Down`, `PageUp`,
`PageDown`) the cursor satisfies `cursor.x ≤ len(row(cursor.y))`,
where a nonexistent row has length 0. -/
theorem vertical_move_clamps_x (e : Editor) :
    ((e.move_cursor Key.up).cursor_position.x ≤
       rowLenAt e.document ((e.move_cursor Key.up).cursor_position.y)) ∧
    ((e.move_cursor Key.down).cursor_position.x ≤
       rowLenAt e.document ((e.move_cursor Key.down).cursor_position.y)) ∧
    ((e.move_cursor Key.pageUp).cursor_position.x ≤
       rowLenAt e.document ((e.move_cursor Key.pageUp).cursor_position.y)) ∧
    ((e.move_cursor Key.pageDown).cursor_position.x ≤
       rowLenAt e.document ((e.move_cursor Key.pageDown).cursor_position.y)) :=
  ⟨move_cursor_clamp e Key.up, move_cursor_clamp e Key.down,
   move_cursor_clamp e Key.pageUp, move_cursor_clamp e Key.pageDown⟩

/-- C4 counterexample: with a terminal of size 0×0 (not positive),
`scroll` is not idempotent: the second call changes the offset the
first call produced. -/
theorem scroll_not_idempotent_degenerate :
    ¬(degenerateSize.scroll.scroll.offset = degenerateSize.scroll.offset) := by
  decide

/-- C4 amended: for every cursor position, offset, and terminal size
with positive height and width, applying `scroll` twice in a row with
an unchanged cursor yields the same offset as applying it once. -/
theorem scroll_idempotent (e : Editor)
    (hh : 0 < e.size.height) (hw : 0 < e.size.width) :
    e.scroll.scroll.offset = e.scroll.offset := by
  have hb := scroll_bounds_aux e hh hw
  rw [scroll_of_inside e.scroll hb.1 hb.2.1 hb.2.2.1 hb.2.2.2]

/-- Witness for C4 at scenario 2's start state. -/
theorem scroll_idempotent_witness :
    0 < scenario2Start.size.height ∧ 0 < scenario2Start.size.width ∧
    scenario2Start.scroll.scroll.offset = scenario2Start.scroll.offset :=
  ⟨by decide, by decide, scroll_idempotent scenario2Start (by decide) (by decide)⟩

/-- Pressing the Down key `n` times. -/
def downN (n : Nat) (e : Editor) : Editor :=
  (fun s => s.move_cursor Key.down)^[n] e

/-- C5: `Down` increments `cursor.y` by 1 exactly when
`cursor.y < document.len()` and otherwise leaves it unchanged; on a
5-line document, 10 `Down` presses from `y = 0` end at `y = 5`. -/
theorem down_increments_until_bound (e : Editor) :
    ((e.move_cursor Key.down).cursor_position.y =
       if e.cursor_position.y < e.document.len
       then e.cursor_position.y + 1 else e.cursor_position.y) ∧
    (downN 10 scenario2Start).cursor_position.y = 5 := by
  constructor
  · simp only [Editor.move_cursor]
    split_ifs <;> rfl
  · decide

/-- C6: if opening the command-line file path fails, construction
still succeeds with `should_quit = false`, substitutes the empty
default document, and sets a status message containing the attempted
file name; if opening succeeds or no path is given, the status message
is the default hint. -/
theorem default_recovers_from_open_failure
    (a name : Text) (rest : List Text) (openDoc : Text → Option Document)
    (d : Document) (size : Size) (now : Nat) :
    ((editorDefault (a :: name :: rest) openDoc size now).should_quit = false) ∧
    (openDoc name = none →
      (editorDefault (a :: name :: rest) openDoc size now).document
          = Document.default ∧
      ∃ pre post,
        (editorDefault (a :: name :: rest) openDoc size now).status_message.text
          = pre ++ name ++ post) ∧
    (openDoc name = some d →
      (editorDefault (a :: name :: rest) openDoc size now).document = d ∧
      (editorDefault (a :: name :: rest) openDoc size now).status_message.text
        = initialStatusText) ∧
    ((editorDefault [] openDoc size now).document = Document.default ∧
     (editorDefault [] openDoc size now).status_message.text
        = initialStatusText) ∧
    ((editorDefault [a] openDoc size now).document = Document.default ∧
     (editorDefault [a] openDoc size now).status_message.text
        = initialStatusText) := by
  refine ⟨rfl, ?_, ?_, ⟨rfl, rfl⟩, ⟨rfl, rfl⟩⟩
  · intro h
    refine ⟨by simp [editorDefault, h], ?_⟩
    refine ⟨"ERROR: Can".toList ++ [Char.ofNat 39] ++ "t open ".toList, [], ?_⟩
    simp [editorDefault, h, errorStatusText]
  · intro h
    exact ⟨by simp [editorDefault, h], by simp [editorDefault, h]⟩

/-- Witness for C6: with an `open` that always fails and args
`["rvim", "f"]`, construction yields the empty default document and a
status text containing `"f"`. -/
theorem default_recovers_from_open_failure_witness :
    ((fun _ : Text => (none : Option Document)) "f".toList = none) ∧
    ((editorDefault ["rvim".toList, "f".toList] (fun _ => none)
        ⟨80, 24⟩ 0).document = Document.default ∧
     ∃ pre post,
       (editorDefault ["rvim".toList, "f".toList] (fun _ => none)
          ⟨80, 24⟩ 0).status_message.text = pre ++ "f".toList ++ post) :=
  ⟨rfl, (default_recovers_from_open_failure ("rvim".toList) ("f".toList) []
    (fun _ => none) Document.default ⟨80, 24⟩ 0).2.1 rfl⟩

/-- C7: the message bar shows the status message's text (truncated to
the terminal width) exactly while the elapsed time since its creation
is strictly below the 5-second TTL, and is blank otherwise; in
particular a message timestamped `T` is visible at `T + 4.9s` and
blank at `T + 5.1s`.  (`draw_message_bar` takes `&self` and never
mutates: the stale message object is never deleted.) -/
theorem message_bar_ttl (e : Editor) (now : Nat) :
    ((e.draw_message_bar now).isSome ↔
        now - e.status_message.time < messageTTL) ∧
    (now - e.status_message.time < messageTTL →
      e.draw_message_bar now
        = some (e.status_message.text.take e.size.width)) ∧
    (e.draw_message_bar (e.status_message.time + 4900000000)
      = some (e.status_message.text.take e.size.width)) ∧
    (e.draw_message_bar (e.status_message.time + 5100000000) = none) := by
  refine ⟨?_, ?_, ?_, ?_⟩
  · simp only [Editor.draw_message_bar]
    split_ifs with h <;> simp [h]
  · intro h
    simp [Editor.draw_message_bar, h]
  · simp only [Editor.draw_message_bar, messageTTL]
    rw [if_pos (by omega)]
  · simp only [Editor.draw_message_bar, messageTTL]
    rw [if_neg (by omega)]

/-- Witness for C7 at scenario 1's start state (message timestamped 0)
observed at instant 3. -/
theorem message_bar_ttl_witness :
    (3 - scenario1Start.status_message.time < messageTTL) ∧
    (scenario1Start.draw_message_bar 3
      = some (scenario1Start.status_message.text.take
                scenario1Start.size.width)) :=
  ⟨by decide, (message_bar_ttl scenario1Start 3).2.1 (by decide)⟩

/-- The spec's welcome-banner padding formula:
`(width - text_len) / 2 - 1` spaces, clamped to zero (never negative),
computed over the integers. -/
def welcomePaddingSpec (width len : Nat) : Nat :=
  (((width : Int) - len) / 2 - 1).toNat

/-- The banner text `format!("RustyVim -- version {}", VERSION)`. -/
def bannerText (version : Text) : Text :=
  "RustyVim -- version ".toList ++ version

/-- C8: on an empty document, row `height / 3` (row 8 of a 24-row
terminal) carries the welcome banner and every other terminal row is a
plain placeholder; the banner line is the placeholder marker `~`
followed by `(width - text_len) / 2 - 1` spaces (clamped to zero) and
the banner text, truncated to the terminal width. -/
theorem welcome_banner_centered (e : Editor) (version : Text)
    (hempty : e.document.rows = []) :
    (∀ i, i < e.size.height →
      (e.draw_rows version).get? i =
        some (if i = e.size.height / 3
              then Line.welcome (draw_welcome_msg e.size.width version)
              else Line.placeholder)) ∧
    (∀ width v,
      draw_welcome_msg width v =
        ('~' :: (List.replicate
            (welcomePaddingSpec width (bannerText v).length) ' '
          ++ bannerText v)).take width) ∧
    ((24 : Nat) / 3 = 8) := by
  refine ⟨?_, ?_, rfl⟩
  · intro i hi
    simp only [Editor.draw_rows, List.get?_eq_getElem?, List.getElem?_map,
      List.getElem?_range hi, Option.map_some]
    simp [Document.row, Document.is_empty, hempty]
  · intro width v
    have h : (width - (bannerText v).length) / 2 - 1
        = welcomePaddingSpec width (bannerText v).length := by
      unfold welcomePaddingSpec; omega
    simp only [draw_welcome_msg, bannerText] at *
    rw [← h]

/-- Witness for C8 at scenario 1's start state (empty document, 80×24
terminal): terminal row 8 = 24 / 3 carries the welcome banner. -/
theorem welcome_banner_centered_witness :
    (scenario1Start.document.rows = []) ∧ (8 < scenario1Start.size.height) ∧
    ((scenario1Start.draw_rows ("0.1.0".toList)).get? 8 =
      some (if 8 = scenario1Start.size.height / 3
            then Line.welcome
                (draw_welcome_msg scenario1Start.size.width ("0.1.0".toList))
            else Line.placeholder)) :=
  ⟨rfl, by decide,
   (welcome_banner_centered scenario1Start ("0.1.0".toList) rfl).1 8 (by decide)⟩

/-- C9: `draw_row` invokes the row collaborator's `render` with
`start = offset.x` and `end = offset.x + width`, so the range always
satisfies `start ≤ end` (and `0 ≤ start` trivially over `Nat`),
meeting `render`'s totality precondition. -/
theorem draw_row_render_range (e : Editor) (r : Row) :
    e.draw_row_range = (e.offset.x, e.offset.x + e.size.width) ∧
    e.draw_row_range.1 ≤ e.draw_row_range.2 ∧
    e.draw_row r = r.render e.draw_row_range.1 e.draw_row_range.2 :=
  ⟨rfl, Nat.le_add_right _ _, rfl⟩

/-- C10: one keypress never changes the document, the status message
or the terminal size (only `should_quit`, `cursor_position` and
`offset` may change); for a key that is neither Ctrl-q nor one of the
eight navigation keys, the whole step is exactly `scroll`, so the
cursor position is also unchanged. -/
theorem process_keypress_frame (e : Editor) (k : Key) :
    ((e.process_keypress k).document = e.document ∧
     (e.process_keypress k).status_message = e.status_message ∧
     (e.process_keypress k).size = e.size) ∧
    (k ≠ Key.ctrl 'q' → k ≠ Key.up → k ≠ Key.down → k ≠ Key.left →
     k ≠ Key.right → k ≠ Key.pageUp → k ≠ Key.pageDown → k ≠ Key.home →
     k ≠ Key.endKey →
     e.process_keypress k = e.scroll ∧
     (e.process_keypress k).cursor_position = e.cursor_position) := by
  constructor
  · cases k <;>
      (simp only [Editor.process_keypress]
       first
         | (split <;> exact ⟨rfl, rfl, rfl⟩)
         | exact ⟨rfl, rfl, rfl⟩)
  · intro hq hu hd hl hr hpu hpd hh he
    cases k with
    | up => exact absurd rfl hu
    | down => exact absurd rfl hd
    | left => exact absurd rfl hl
    | right => exact absurd rfl hr
    | pageUp => exact absurd rfl hpu
    | pageDown => exact absurd rfl hpd
    | home => exact absurd rfl hh
    | endKey => exact absurd rfl he
    | char c => exact ⟨rfl, rfl⟩
    | other => exact ⟨rfl, rfl⟩
    | ctrl c =>
        have hc : c ≠ 'q' := fun h => hq (by rw [h])
        have hstep : e.process_keypress (.ctrl c) = e.scroll := by
          simp only [Editor.process_keypress, if_neg hc]
        refine ⟨hstep, ?_⟩
        rw [hstep]
        exact (scroll_frame e).2.2.1

/-- Witness for C10 at scenario 2's start state with the key `z`
(neither Ctrl-q nor a navigation key). -/
theorem process_keypress_frame_witness :
    (Key.char 'z' ≠ Key.ctrl 'q') ∧
    (scenario2Start.process_keypress (Key.char 'z') = scenario2Start.scroll ∧
     (scenario2Start.process_keypress (Key.char 'z')).cursor_position
        = scenario2Start.cursor_position) :=
  ⟨by decide,
   (process_keypress_frame scenario2Start (Key.char 'z')).2 (by decide)
     (by decide) (by decide) (by decide) (by decide) (by decide) (by decide)
     (by decide) (by decide)⟩

end RustyVim
